import Mathlib

/-!
A shallow embedding of the camera stream acquisition and lifecycle controller
in `src/frontend/src/hooks/useWebcamStream.ts`.

Modelling conventions:
* A `MediaStream` is identified by a numeric id.  Every stream ever acquired is
  recorded, together with its tracks, in the `streams` field of the controller
  state, so that theorems can speak about tracks of streams that are no longer
  referenced.  `MediaStreamTrack.stop()` sets a track's `stopped` flag; a track
  ending on its own sets its `ended` flag; registering an `onended` handler
  sets `onendedSet`.
* The video element (`videoElementRef`) is modelled by `videoMounted : Bool`
  plus `videoSrc : Option Nat` for its `srcObject`.
* React `useState` setters become direct field updates; `useRef` cells
  (`startInFlightRef`, `mountedRef`) are plain fields.
* `navigator.mediaDevices.getUserMedia` is driven by an environment
  (`StartEnv.gum`), giving the outcome of the n-th acquisition attempt of one
  `start()` call; `enumerateDevices` is `StartEnv.devices`.
* JavaScript is single threaded; the only suspension points of `start()` are
  its `await`s.  Events that can happen while `start()` is suspended are
  modelled by environment flags applied at the resume point: `unbindDuring`
  (the host withdraws the video element) and `disposeDuring` (the component is
  unmounted and the cleanup effect of lines 322-340 runs).
* `videoEl.play()` outcomes and `readyState` come from `AttachEnv`.  The
  `onloadedmetadata` / `onplaying` / `onpause` / `onerror` handlers of the
  video element only update the diagnostic string when the platform fires them
  later; their registration is not tracked since no observable claim depends
  on it.  The immediate `attemptPlay()` call of line 167 is modelled.
* In `categorizeError`, `name` stands for the JavaScript `err?.name || ""`
  (so a missing or falsy name is the empty string) and `message` for
  `err?.message || String(err)`.
-/

namespace Webcam

/-- The closed error taxonomy `WebcamErrorType` of the source. -/
inductive WebcamErrorType where
  | permission_denied
  | device_not_found
  | element_not_mounted
  | overconstrained
  | stream_ended
  | unknown
deriving DecidableEq, Repr

/-- Result of `categorizeError`: a taxonomy kind and a user-facing message. -/
structure ErrorInfo where
  type : WebcamErrorType
  message : String
deriving DecidableEq, Repr

/-- `categorizeError` (lines 39-65).  `name` is `err?.name || ""` and
`message` is `err?.message || String(err)`. -/
def categorizeError (name message : String) : ErrorInfo :=
  if name = "NotAllowedError" ∨ name = "PermissionDeniedError" then
    ⟨.permission_denied,
      "Camera access was denied. Please allow camera permissions in your browser settings and refresh."⟩
  else if name = "NotFoundError" ∨ name = "DevicesNotFoundError" then
    ⟨.device_not_found, "No camera found. Please connect a camera and try again."⟩
  else if name = "OverconstrainedError" ∨ name = "ConstraintNotSatisfiedError" then
    ⟨.overconstrained,
      "Camera does not support the requested settings. Trying with default settings..."⟩
  else
    ⟨.unknown,
      if message = "" then "An unknown error occurred while accessing the camera." else message⟩

/-- A `MediaStreamTrack`: its `kind`, whether `stop()` was called on it,
whether it ended by itself, and whether an `onended` handler was attached. -/
structure Track where
  kind : String
  stopped : Bool
  ended : Bool
  onendedSet : Bool
deriving DecidableEq, Repr

/-- A `MediaStream`: an id and its tracks. -/
structure StreamRec where
  id : Nat
  tracks : List Track
deriving DecidableEq, Repr

/-- The full controller state: the video element ref, the stream ref, the
React state cells, the guard refs, and the record of all acquired streams. -/
structure St where
  videoMounted : Bool
  videoSrc : Option Nat
  streamRef : Option Nat
  hasPermission : Option Bool
  error : Option String
  errorType : Option WebcamErrorType
  debugInfo : Option String
  needsUserGesture : Bool
  isRetrying : Bool
  startInFlight : Bool
  mounted : Bool
  streams : List StreamRec
  nextId : Nat
deriving DecidableEq, Repr

/-- `stream.getTracks()` for the stream with id `i` (empty if unknown). -/
def getTracks (i : Nat) (s : St) : List Track :=
  ((s.streams.find? fun r => r.id == i).map StreamRec.tracks).getD []

/-- `stream.getTracks().forEach(t => t.stop())` on the stream with id `i`. -/
def stopStreamTracks (i : Nat) (s : St) : St :=
  { s with streams := s.streams.map fun r =>
      if r.id = i then { r with tracks := r.tracks.map fun t => { t with stopped := true } }
      else r }

/-- Every track of the stream with id `i` has been stopped. -/
def streamReleased (i : Nat) (s : St) : Bool :=
  s.streams.all fun r => if r.id = i then r.tracks.all (fun t => t.stopped) else true

/-- Acquisition of a fresh `MediaStream` whose tracks have the given kinds. -/
def allocStream (kinds : List String) (s : St) : Nat × St :=
  (s.nextId,
   { s with
      streams := s.streams ++ [⟨s.nextId, kinds.map fun k => ⟨k, false, false, false⟩⟩],
      nextId := s.nextId + 1 })

/-- `stop` (lines 85-98): stop every track of the held stream (each stop
updating the diagnostic), clear the stream ref, and clear the video element
source when a video element is bound. -/
def stop (s : St) : St :=
  let s1 :=
    match s.streamRef with
    | some i =>
      let ts := getTracks i s
      let s' := stopStreamTracks i s
      let s'' :=
        match ts.getLast? with
        | some t => { s' with debugInfo := some ("Stopped track: " ++ t.kind) }
        | none => s'
      { s'' with streamRef := none }
    | none => s
  if s1.videoMounted then { s1 with videoSrc := none } else s1

/-- Outcome of `videoEl.play()` as seen by the handlers of lines 129-144;
`noPromise` models a platform where `play()` returns `undefined`. -/
inductive PlayOutcome where
  | success
  | abortError
  | notAllowedError
  | otherError (name message : String)
  | noPromise
deriving DecidableEq, Repr

/-- Platform behaviour of the bound video element during one attach. -/
structure AttachEnv where
  readyState : Nat
  play : PlayOutcome
deriving DecidableEq, Repr

/-- `attemptPlay` (lines 120-146) with the promise handlers applied. -/
def attemptPlay (env : AttachEnv) (s : St) : St :=
  if env.readyState < 2 then
    { s with
        debugInfo := some ("Waiting for video metadata... readyState: "
                             ++ toString env.readyState) }
  else
    match env.play with
    | .noPromise => s
    | .success =>
      { s with debugInfo := some "Video playing successfully.", needsUserGesture := false }
    | .abortError =>
      { s with debugInfo := some "Play interrupted, will retry on user gesture." }
    | .notAllowedError =>
      { s with needsUserGesture := true,
               debugInfo := some "Autoplay blocked. Click 'Start Camera' to continue." }
    | .otherError n m =>
      { s with debugInfo := some ("Play failed: " ++ n ++ " - " ++ m) }

/-- Registration of the `onended` watcher on every video track (lines 170-178). -/
def registerOnended (i : Nat) (s : St) : St :=
  { s with streams := s.streams.map fun r =>
      if r.id = i then
        { r with tracks := r.tracks.map fun t =>
            if t.kind = "video" then { t with onendedSet := true } else t }
      else r }

/-- `attachStreamToVideo` (lines 101-181): if no video element is bound, report
`element_not_mounted` and stop every track of the supplied stream; otherwise
bind the stream, attempt playback, and watch the video tracks for ending. -/
def attachStreamToVideo (env : AttachEnv) (i : Nat) (s : St) : St × Bool :=
  if s.videoMounted = false then
    ({ stopStreamTracks i s with
        error := some "Video element not mounted. Please wait and retry.",
        errorType := some .element_not_mounted,
        debugInfo := some "Video element missing when trying to attach stream.",
        hasPermission := some false }, false)
  else
    let s1 := { s with
        debugInfo := some ("Attaching stream. Video readyState: " ++ toString env.readyState),
        videoSrc := some i,
        streamRef := some i }
    let s2 := attemptPlay env s1
    (registerOnended i s2, true)

/-- A low-level platform failure after JavaScript string coercion:
`name = err?.name || ""`, `message = err?.message || String(err)`. -/
structure GumErr where
  name : String
  message : String
deriving DecidableEq, Repr

/-- Outcome of one `getUserMedia` call: a stream (as its track kinds) or a
rejection. -/
inductive GumResult where
  | ok (kinds : List String)
  | err (e : GumErr)
deriving DecidableEq, Repr

/-- A record from `enumerateDevices`. -/
structure Device where
  deviceId : String
  kind : String
deriving DecidableEq, Repr

/-- Environment of one `start()` call: the outcome of its n-th acquisition
attempt, the device list, and the events occurring while it is suspended. -/
structure StartEnv where
  gum : Nat → GumResult
  devices : List Device
  unbindDuring : Bool
  disposeDuring : Bool
  attach : AttachEnv

/-- `setDebugInfo` of `requestStream` (lines 203-206). -/
def requestDebug (label : String) (s : St) : St :=
  { s with debugInfo := some ("Requesting camera access (" ++ label ++ ")...") }

/-- Result of the negotiation chain: an acquired stream id or the error that
propagates to the outer `catch`. -/
inductive NegoResult where
  | ok (i : Nat)
  | err (e : GumErr)
deriving DecidableEq, Repr

/-- The fallback negotiation of `start` (lines 208-249): attempt the provided
constraints; on `overconstrained` or `device_not_found` attempt minimal
constraints; if that fails with `device_not_found`, enumerate cameras and, if
any exist, attempt the first one pinned by device id.  Returns the updated
state, the result, and the number of `getUserMedia` calls made. -/
def negotiate (env : StartEnv) (s : St) : St × NegoResult × Nat :=
  let s := requestDebug "with constraints" s
  match env.gum 0 with
  | .ok kinds =>
    let (i, s) := allocStream kinds s
    (s, .ok i, 1)
  | .err e =>
    let t := (categorizeError e.name e.message).type
    if t = .overconstrained ∨ t = .device_not_found then
      let s := { s with debugInfo := some "Retrying with minimal constraints..." }
      let s := requestDebug "minimal" s
      match env.gum 1 with
      | .ok kinds =>
        let (i, s) := allocStream kinds s
        (s, .ok i, 2)
      | .err e2 =>
        let t2 := (categorizeError e2.name e2.message).type
        if t2 = .device_not_found then
          let s := { s with debugInfo := some "Enumerating available cameras..." }
          let cameras := env.devices.filter fun d => d.kind = "videoinput"
          if cameras.isEmpty then
            (s, .err e2, 2)
          else
            let s := { s with
                debugInfo := some ("Found " ++ toString cameras.length
                                     ++ " camera(s). Trying first one...") }
            let s := requestDebug "specific device" s
            match env.gum 2 with
            | .ok kinds =>
              let (i, s) := allocStream kinds s
              (s, .ok i, 3)
            | .err e3 => (s, .err e3, 3)
        else (s, .err e2, 2)
    else (s, .err e, 1)

/-- The host withdrawing the video element: `videoCallbackRef(null)`
(lines 316-318). -/
def unbindSurface (s : St) : St :=
  { s with videoMounted := false, videoSrc := none,
           debugInfo := some "Video element unmounted." }

/-- The cleanup effect on unmount (lines 322-340): clear the mounted flag,
stop every track of the held stream, clear the stream ref, and clear the
video element source when an element is bound. -/
def disposeCleanup (s : St) : St :=
  let s := { s with mounted := false }
  let s :=
    match s.streamRef with
    | some i => { stopStreamTracks i s with streamRef := none }
    | none => s
  if s.videoMounted then { s with videoSrc := none } else s

/-- Lines 198-201 of `start`: raise the in-flight flag and clear the gesture
and error state before negotiating. -/
def startPre (s : St) : St :=
  { s with startInFlight := true, needsUserGesture := false,
           error := none, errorType := none }

/-- Lines 203-278 of `start`: negotiate, apply the events that occurred while
the call was suspended awaiting the platform, then either bail out (component
disposed), attach the stream, or classify the rethrown failure; on every path
the `finally` of line 277 clears the in-flight flag.  Returns the state and
the number of `getUserMedia` calls. -/
def startBody (env : StartEnv) (s : St) : St × Nat :=
  let (s, res, n) := negotiate env s
  let s := if env.unbindDuring then unbindSurface s else s
  let s := if env.disposeDuring then disposeCleanup s else s
  match res with
  | .ok i =>
    if s.mounted = false then
      let s := stopStreamTracks i s
      ({ s with debugInfo := some "Component unmounted, stopped stream.",
                startInFlight := false }, n)
    else
      let s := { s with hasPermission := some true,
                        debugInfo := some "Stream acquired successfully." }
      -- line 266 ignores the boolean result of attachStreamToVideo
      let s := (attachStreamToVideo env.attach i s).1
      ({ s with startInFlight := false }, n)
  | .err e =>
    if s.mounted = false then
      ({ s with startInFlight := false }, n)
    else
      let c := categorizeError e.name e.message
      ({ s with
          hasPermission := some false,
          error := some c.message,
          errorType := some c.type,
          debugInfo := some ("Failed: " ++ (if e.name = "" then "Unknown" else e.name)
                               ++ " - " ++ e.message),
          startInFlight := false }, n)

/-- `start` (lines 184-279), returning the final state and the number of
`getUserMedia` calls made by this invocation: the in-flight guard, the
mounted-element guard, then the negotiation body. -/
def startRun (env : StartEnv) (s : St) : St × Nat :=
  if s.startInFlight then
    ({ s with debugInfo := some "Start already in progress, skipping..." }, 0)
  else if s.videoMounted = false then
    ({ s with
        error := some "Video element not ready. Please wait a moment and try again.",
        errorType := some .element_not_mounted,
        debugInfo := some "Cannot start: video element not mounted yet." }, 0)
  else
    startBody env (startPre s)

/-- The state transformer of `start`. -/
def start (env : StartEnv) (s : St) : St :=
  (startRun env s).1

/-- The synchronous prefix of `retry` (lines 283-286). -/
def retryPre (s : St) : St :=
  { s with isRetrying := true, error := none, errorType := none,
           debugInfo := some "Retrying camera access..." }

/-- `retry` (lines 282-296): raise `isRetrying`, clear the error, stop, wait
the fixed settling delay (pure passage of time), start, clear `isRetrying`. -/
def retry (env : StartEnv) (s : St) : St :=
  { start env (stop (retryPre s)) with isRetrying := false }

/-- Mark the track at the given index as having ended. -/
def markEnded : Nat → List Track → List Track
  | _, [] => []
  | 0, t :: ts => { t with ended := true } :: ts
  | n + 1, t :: ts => t :: markEnded n ts

/-- A registered `onended` handler firing on the track at index `tidx` of the
stream with id `i` (lines 171-177): the track has ended; if the component is
still mounted, report `stream_ended`. -/
def fireTrackEnded (i tidx : Nat) (s : St) : St :=
  let registered := (((getTracks i s)[tidx]?).map Track.onendedSet).getD false
  let s0 := { s with streams := s.streams.map fun r =>
      if r.id = i then { r with tracks := markEnded tidx r.tracks }
      else r }
  if registered then
    if s0.mounted = false then s0
    else
      { s0 with
          error := some "Camera stream ended unexpectedly. Another app may be using the camera.",
          errorType := some .stream_ended,
          debugInfo := some "Video track ended.",
          hasPermission := some false }
  else s0

/-! ### Concrete fixtures

A freshly mounted controller and small driving environments, used to evaluate
the definitions on concrete scenarios. -/

/-- The controller state right after the video element mounts: nothing
acquired, no error, both guard refs clear. -/
def s0 : St :=
  { videoMounted := true, videoSrc := none, streamRef := none, hasPermission := none,
    error := none, errorType := none, debugInfo := none, needsUserGesture := false,
    isRetrying := false, startInFlight := false, mounted := true, streams := [], nextId := 0 }

/-- A video element that is ready and allows autoplay. -/
def aenvOk : AttachEnv := { readyState := 4, play := .success }

/-- Every acquisition succeeds with a single video track. -/
def envOk : StartEnv :=
  { gum := fun _ => .ok ["video"], devices := [], unbindDuring := false,
    disposeDuring := false, attach := aenvOk }

/-- Every acquisition succeeds with two video tracks. -/
def envTwo : StartEnv :=
  { gum := fun _ => .ok ["video", "video"], devices := [], unbindDuring := false,
    disposeDuring := false, attach := aenvOk }

/-- Every acquisition rejects with `NotAllowedError` (permission denied). -/
def envPerm : StartEnv :=
  { gum := fun _ => .err ⟨"NotAllowedError", "Permission denied"⟩, devices := [],
    unbindDuring := false, disposeDuring := false, attach := aenvOk }

/-- Acquisition succeeds, but the component is disposed while the call is
suspended awaiting the platform. -/
def envDispose : StartEnv :=
  { gum := fun _ => .ok ["video"], devices := [], unbindDuring := false,
    disposeDuring := true, attach := aenvOk }

/-- A controller that went live on stream 0. -/
def sLive : St := start envOk s0

/-- A controller with a `start()` already in flight. -/
def sInFlight : St := { s0 with startInFlight := true }

/-! ### Helper lemmas -/

/-- Whether a stream is released depends only on the stream record list. -/
theorem streamReleased_streams_eq {s1 s2 : St} (i : Nat) (h : s1.streams = s2.streams) :
    streamReleased i s1 = streamReleased i s2 := by
  simp [streamReleased, h]

/-- Stopping the tracks of stream `i` releases stream `i`. -/
theorem streamReleased_stopStreamTracks (i : Nat) (s : St) :
    streamReleased i (stopStreamTracks i s) = true := by
  simp only [streamReleased, stopStreamTracks, List.all_eq_true]
  intro r hr
  rcases List.mem_map.mp hr with ⟨r0, _, rfl⟩
  by_cases h : r0.id = i
  · simp only [h, if_pos, List.all_eq_true]
    intro t ht
    rcases List.mem_map.mp ht with ⟨t0, _, rfl⟩
    simp
  · simp [h]

/-- `stop` on a state holding stream `i`: the ref is cleared and the streams
are those with stream `i`'s tracks stopped. -/
theorem stop_eq_of_streamRef {s : St} {i : Nat} (h : s.streamRef = some i) :
    (stop s).streamRef = none ∧ (stop s).streams = (stopStreamTracks i s).streams := by
  simp only [stop, h]
  rcases hg : (getTracks i s).getLast? with _ | t <;> simp only [hg] <;>
    split <;> simp [stopStreamTracks]

/-- `stop` leaves every controller field other than the stream ref, the video
source and the diagnostic unchanged, and changes the stream records only by
stopping tracks (id, kind, ended, onended preserved). -/
theorem stop_fields (s : St) :
    (stop s).error = s.error ∧ (stop s).errorType = s.errorType ∧
    (stop s).hasPermission = s.hasPermission ∧
    (stop s).needsUserGesture = s.needsUserGesture ∧
    (stop s).isRetrying = s.isRetrying ∧ (stop s).videoMounted = s.videoMounted ∧
    (stop s).startInFlight = s.startInFlight ∧ (stop s).mounted = s.mounted ∧
    (stop s).nextId = s.nextId := by
  rcases hr : s.streamRef with _ | i <;> simp only [stop, hr]
  · split <;> simp
  · rcases hg : (getTracks i s).getLast? with _ | t <;> simp only [hg] <;>
      split <;> simp [stopStreamTracks]

/-- The stream ref is always cleared by `stop`. -/
theorem stop_streamRef (s : St) : (stop s).streamRef = none := by
  rcases hr : s.streamRef with _ | i <;> simp only [stop, hr]
  · split <;> simp [hr]
  · rcases hg : (getTracks i s).getLast? with _ | t <;> simp only [hg] <;> split <;> simp

/-- When a video element is bound, `stop` clears its source. -/
theorem stop_videoSrc (s : St) (h : s.videoMounted = true) : (stop s).videoSrc = none := by
  rcases hr : s.streamRef with _ | i <;> simp only [stop, hr]
  · split <;> simp_all
  · rcases hg : (getTracks i s).getLast? with _ | t <;> simp only [hg] <;>
      split <;> simp_all [stopStreamTracks]

/-- Overwriting an already-clear video source is the identity. -/
theorem videoSrc_clear_id (x : St) (h : x.videoSrc = none) :
    ({ x with videoSrc := none } : St) = x := by
  cases x
  simp_all

/-- `disposeCleanup` on a state holding stream `i`. -/
theorem disposeCleanup_eq_of_streamRef {s : St} {i : Nat} (h : s.streamRef = some i) :
    (disposeCleanup s).streamRef = none ∧
    (disposeCleanup s).streams = (stopStreamTracks i s).streams := by
  simp only [disposeCleanup, h]
  split <;> simp [stopStreamTracks]

/-- `disposeCleanup` leaves the video-mounted flag unchanged and clears the
video source when an element is bound. -/
theorem disposeCleanup_videoSrc (s : St) (h : s.videoMounted = true) :
    (disposeCleanup s).videoSrc = none := by
  rcases hr : s.streamRef with _ | i <;> simp only [disposeCleanup, hr] <;>
    split <;> simp_all [stopStreamTracks]

/-- `disposeCleanup` always clears the mounted flag and the stream ref. -/
theorem disposeCleanup_basic (s : St) :
    (disposeCleanup s).mounted = false ∧ (disposeCleanup s).streamRef = none := by
  rcases hr : s.streamRef with _ | i <;> simp only [disposeCleanup, hr] <;>
    split <;> simp [hr, stopStreamTracks]

/-- The part of a track that `track.stop()` does not touch. -/
def trackShape (t : Track) : String × Bool × Bool := (t.kind, t.ended, t.onendedSet)

/-- The part of a stream record that stopping its tracks does not touch. -/
def streamShape (r : StreamRec) : Nat × List (String × Bool × Bool) :=
  (r.id, r.tracks.map trackShape)

/-- Stopping a stream's tracks changes nothing but the stopped flags. -/
theorem streamShape_stopStreamTracks (i : Nat) (s : St) :
    (stopStreamTracks i s).streams.map streamShape = s.streams.map streamShape := by
  simp only [stopStreamTracks, List.map_map]
  apply List.map_congr_left
  intro r _
  by_cases h : r.id = i <;>
    simp [h, streamShape, trackShape, List.map_map, Function.comp]

/-- `stop` changes the stream records only by stopping tracks. -/
theorem stop_streams_shape (s : St) :
    (stop s).streams.map streamShape = s.streams.map streamShape := by
  rcases hr : s.streamRef with _ | i
  · simp only [stop, hr]
    split <;> simp
  · rw [(stop_eq_of_streamRef hr).2, streamShape_stopStreamTracks]

/-- If a state has no held stream and a clear video source, `stop` fixes it. -/
theorem stop_clean (x : St) (h : x.streamRef = none)
    (h2 : x.videoMounted = true → x.videoSrc = none) : stop x = x := by
  simp only [stop, h]
  split
  · next hvm =>
    have h3 := h2 hvm
    cases x
    simp_all
  · rfl

/-- Marking a track as ended does not change any stopped flag. -/
theorem markEnded_map_stopped (n : Nat) (l : List Track) :
    (markEnded n l).map Track.stopped = l.map Track.stopped := by
  induction l generalizing n with
  | nil => cases n <;> rfl
  | cons t ts ih =>
    cases n with
    | zero => simp [markEnded]
    | succ m => simp [markEnded, ih]

/-- How many unstopped tracks the next `stop()` call would have to stop. -/
def pendingStops (s : St) : Nat :=
  match s.streamRef with
  | some i => ((getTracks i s).filter fun t => t.stopped = false).length
  | none => 0

/-! ### Claims -/

/-- C6: `stop()` is idempotent — a second `stop()` yields exactly the same
state as the first, and it has zero tracks left to stop, so it never
double-releases a track; `stop()` on an already stopped controller is a
no-op. -/
theorem c6_stop_idempotent (s : St) :
    stop (stop s) = stop s ∧ pendingStops (stop s) = 0 := by
  constructor
  · apply stop_clean (stop s) (stop_streamRef s)
    intro hm
    have hvm : (stop s).videoMounted = s.videoMounted := (stop_fields s).2.2.2.2.2.1
    exact stop_videoSrc s (hvm ▸ hm)
  · simp [pendingStops, stop_streamRef]

/-- C10: `stop()` modifies only the held stream reference (releasing its
tracks), the display surface source, and the advisory diagnostic string; the
`error`, `errorType`, `hasPermission`, `needsUserGesture` and `isRetrying`
fields — as well as the guard refs, the id counter, and every track's kind /
ended / onended data — are unchanged, so stopping does not clear a
previously reported error. -/
theorem c10_stop_frame (s : St) :
    (stop s).error = s.error ∧ (stop s).errorType = s.errorType ∧
    (stop s).hasPermission = s.hasPermission ∧
    (stop s).needsUserGesture = s.needsUserGesture ∧
    (stop s).isRetrying = s.isRetrying ∧
    (stop s).videoMounted = s.videoMounted ∧
    (stop s).startInFlight = s.startInFlight ∧
    (stop s).mounted = s.mounted ∧
    (stop s).nextId = s.nextId ∧
    (stop s).streams.map streamShape = s.streams.map streamShape := by
  obtain ⟨h1, h2, h3, h4, h5, h6, h7, h8, h9⟩ := stop_fields s
  exact ⟨h1, h2, h3, h4, h5, h6, h7, h8, h9, stop_streams_shape s⟩

/-- C1 counterexample: after going live on stream 0, a second successful
`start()` attaches stream 1 in its place, yet no track of stream 0 is
stopped — the transition out of live by replacement leaves an unstopped
track, contradicting the claim. -/
theorem c1_counterexample :
    (start envOk s0).streamRef = some 0 ∧
    (start envOk (start envOk s0)).streamRef = some 1 ∧
    streamReleased 0 (start envOk (start envOk s0)) = false := by
  decide

/-- C1 (amended): at most one CaptureHandle is referenced by the controller
at a time (`streamRef` is a single optional reference), and when the
controller leaves the live state through `stop()` or through disposal the
previously held CaptureHandle has every constituent track stopped; however,
replacement of the stream by a new `start()` acquisition (and the
`stream_ended` transition) do not stop the previous handle's tracks. -/
theorem c1_release_on_stop_and_dispose (s : St) (i : Nat) (h : s.streamRef = some i) :
    (stop s).streamRef = none ∧ streamReleased i (stop s) = true ∧
    (disposeCleanup s).streamRef = none ∧ streamReleased i (disposeCleanup s) = true := by
  obtain ⟨h1, h2⟩ := stop_eq_of_streamRef h
  obtain ⟨h3, h4⟩ := disposeCleanup_eq_of_streamRef h
  refine ⟨h1, ?_, h3, ?_⟩
  · rw [streamReleased_streams_eq i h2]
    exact streamReleased_stopStreamTracks i s
  · rw [streamReleased_streams_eq i h4]
    exact streamReleased_stopStreamTracks i s

/-- Witness for C1's amended theorem on a live controller. -/
theorem c1_witness :
    sLive.streamRef = some 0 ∧
    ((stop sLive).streamRef = none ∧ streamReleased 0 (stop sLive) = true ∧
     (disposeCleanup sLive).streamRef = none ∧
     streamReleased 0 (disposeCleanup sLive) = true) :=
  ⟨by decide, c1_release_on_stop_and_dispose sLive 0 (by decide)⟩

/-- A controller that went live on stream 0 carrying two video tracks. -/
def sLiveTwo : St := start envTwo s0

/-- C2 counterexample: with a live two-track stream, an unexpected end of one
video track puts the controller in `error`/`stream_ended`, but the
CaptureHandle is not released — `streamRef` still holds stream 0 and its
other track is never stopped. -/
theorem c2_counterexample :
    (fireTrackEnded 0 0 sLiveTwo).errorType = some .stream_ended ∧
    (fireTrackEnded 0 0 sLiveTwo).streamRef = some 0 ∧
    streamReleased 0 (fireTrackEnded 0 0 sLiveTwo) = false := by
  decide

/-- C2 (amended): when a watched video track of the held CaptureHandle ends
outside an explicit `stop()` while the component is mounted, the controller
transitions to `error` with kind `stream_ended` (and `hasPermission` is
cleared), but the CaptureHandle is not released: the handler stops no track
and `streamRef` still holds the handle. -/
theorem c2_stream_ended_transition (s : St) (i tidx : Nat)
    (hreg : (((getTracks i s)[tidx]?).map Track.onendedSet).getD false = true)
    (hm : s.mounted = true) :
    (fireTrackEnded i tidx s).errorType = some .stream_ended ∧
    (fireTrackEnded i tidx s).error =
      some "Camera stream ended unexpectedly. Another app may be using the camera." ∧
    (fireTrackEnded i tidx s).hasPermission = some false ∧
    (fireTrackEnded i tidx s).streamRef = s.streamRef ∧
    (fireTrackEnded i tidx s).streams.map (fun r => r.tracks.map Track.stopped) =
      s.streams.map (fun r => r.tracks.map Track.stopped) := by
  refine ⟨?_, ?_, ?_, ?_, ?_⟩ <;>
      simp only [fireTrackEnded, hreg, hm, Bool.true_eq_false, if_true, if_false] <;>
      try rfl
  rw [List.map_map]
  apply List.map_congr_left
  intro r _
  by_cases h : r.id = i <;> simp [h, Function.comp, markEnded_map_stopped]

/-- Witness for C2's amended theorem on a live two-track controller. -/
theorem c2_witness :
    ((((getTracks 0 sLiveTwo)[0]?).map Track.onendedSet).getD false = true ∧
     sLiveTwo.mounted = true) ∧
    ((fireTrackEnded 0 0 sLiveTwo).errorType = some .stream_ended ∧
     (fireTrackEnded 0 0 sLiveTwo).error =
       some "Camera stream ended unexpectedly. Another app may be using the camera." ∧
     (fireTrackEnded 0 0 sLiveTwo).hasPermission = some false ∧
     (fireTrackEnded 0 0 sLiveTwo).streamRef = sLiveTwo.streamRef ∧
     (fireTrackEnded 0 0 sLiveTwo).streams.map (fun r => r.tracks.map Track.stopped) =
       sLiveTwo.streams.map (fun r => r.tracks.map Track.stopped)) :=
  ⟨⟨by decide, by decide⟩, c2_stream_ended_transition sLiveTwo 0 0 (by decide) (by decide)⟩

/-- C3 counterexample: a `start()` that finds another `start()` in flight does
modify externally observable state — it overwrites the observable diagnostic
string (and `diagnostic` is part of the exposed ControllerState). -/
theorem c3_counterexample :
    sInFlight.startInFlight = true ∧
    (startRun envOk sInFlight).2 = 0 ∧
    (start envOk sInFlight).debugInfo ≠ sInFlight.debugInfo := by
  decide

/-- C3 (amended): a `start()` call that finds another `start()` already in
flight performs no acquisition attempt and modifies only the advisory
diagnostic string; every other field — and hence every live CaptureHandle —
is untouched, so only the in-flight call's completion can update them. -/
theorem c3_guarded_start (env : StartEnv) (s : St) (h : s.startInFlight = true) :
    (startRun env s).2 = 0 ∧
    start env s = { s with debugInfo := some "Start already in progress, skipping..." } := by
  simp [startRun, start, h]

/-- Witness for C3's amended theorem. -/
theorem c3_witness :
    sInFlight.startInFlight = true ∧
    (startRun envOk sInFlight).2 = 0 ∧
    start envOk sInFlight =
      { sInFlight with debugInfo := some "Start already in progress, skipping..." } :=
  ⟨by decide, (c3_guarded_start envOk sInFlight (by decide)).1,
    (c3_guarded_start envOk sInFlight (by decide)).2⟩

/-- C5: `retry()` first performs a full `stop()` on the state it raised
`isRetrying` on — the state handed to `start()` (after the settling delay) has
its stream ref cleared, every track of the previously held CaptureHandle
stopped, and `isRetrying = true` — and after `start()` settles, with any
environment (success or failure), `isRetrying` is false.  The state `s` is
arbitrary, so this holds in particular when the controller is already in the
error state. -/
theorem c5_retry_full_stop (env : StartEnv) (s : St) (i : Nat) (h : s.streamRef = some i) :
    (stop (retryPre s)).streamRef = none ∧
    streamReleased i (stop (retryPre s)) = true ∧
    (stop (retryPre s)).isRetrying = true ∧
    (retry env s).isRetrying = false := by
  have hpre : (retryPre s).streamRef = some i := by simp [retryPre, h]
  obtain ⟨h1, h2⟩ := stop_eq_of_streamRef hpre
  refine ⟨h1, ?_, ?_, rfl⟩
  · rw [streamReleased_streams_eq i h2]
    exact streamReleased_stopStreamTracks i (retryPre s)
  · have hir := (stop_fields (retryPre s)).2.2.2.2.1
    rw [hir]
    simp [retryPre]

/-- Witness for C5 on a live controller in an environment whose next
acquisition fails. -/
theorem c5_witness :
    sLive.streamRef = some 0 ∧
    ((stop (retryPre sLive)).streamRef = none ∧
     streamReleased 0 (stop (retryPre sLive)) = true ∧
     (stop (retryPre sLive)).isRetrying = true ∧
     (retry envPerm sLive).isRetrying = false) :=
  ⟨by decide, c5_retry_full_stop envPerm sLive 0 (by decide)⟩

/-- C7: when no video element is bound, `start()` performs no acquisition
attempt at all and (when not already guarded) ends with error kind
`element_not_mounted`; and `attachStreamToVideo`, handed an already-acquired
stream while the element is gone, stops every track of that stream and
reports `element_not_mounted` before returning. -/
theorem c7_element_not_mounted (env : StartEnv) (aenv : AttachEnv) (s s2 : St) (i : Nat)
    (h : s.videoMounted = false) (h2 : s2.videoMounted = false) :
    (startRun env s).2 = 0 ∧
    (s.startInFlight = false →
      (start env s).errorType = some .element_not_mounted ∧
      (start env s).error = some "Video element not ready. Please wait a moment and try again.") ∧
    ((attachStreamToVideo aenv i s2).2 = false ∧
     streamReleased i (attachStreamToVideo aenv i s2).1 = true ∧
     (attachStreamToVideo aenv i s2).1.errorType = some .element_not_mounted) := by
  refine ⟨?_, ?_, ?_, ?_, ?_⟩
  · by_cases hf : s.startInFlight = true <;> simp [startRun, h, hf]
  · intro hf
    simp [startRun, start, h, hf]
  · simp [attachStreamToVideo, h2]
  · have hstr : streamReleased i (attachStreamToVideo aenv i s2).1 =
        streamReleased i (stopStreamTracks i s2) :=
      streamReleased_streams_eq i (by simp [attachStreamToVideo, h2, stopStreamTracks])
    rw [hstr]
    exact streamReleased_stopStreamTracks i s2
  · simp [attachStreamToVideo, h2]

/-- A live controller whose video element the host then withdrew. -/
def sDetached : St := unbindSurface sLive

/-- Witness for C7 on a controller whose surface was withdrawn while it held
stream 0. -/
theorem c7_witness :
    (sDetached.videoMounted = false ∧ sDetached.startInFlight = false) ∧
    ((startRun envOk sDetached).2 = 0 ∧
     (start envOk sDetached).errorType = some .element_not_mounted ∧
     (start envOk sDetached).error =
       some "Video element not ready. Please wait a moment and try again." ∧
     (attachStreamToVideo aenvOk 0 sDetached).2 = false ∧
     streamReleased 0 (attachStreamToVideo aenvOk 0 sDetached).1 = true ∧
     (attachStreamToVideo aenvOk 0 sDetached).1.errorType = some .element_not_mounted) := by
  have hc := c7_element_not_mounted envOk aenvOk sDetached sDetached 0 (by decide) (by decide)
  have he := hc.2.1 (by decide)
  exact ⟨⟨by decide, by decide⟩, hc.1, he.1, he.2, hc.2.2.1, hc.2.2.2.1, hc.2.2.2.2⟩

/-- C9 counterexample: an unrecognized failure name is classified `unknown`,
but the attached message is exactly the raw low-level failure message — not a
distinct human-readable text — so the "non-raw" part of the claim fails. -/
theorem c9_counterexample :
    (categorizeError "SomeWeirdError" "raw platform failure text").type = .unknown ∧
    (categorizeError "SomeWeirdError" "raw platform failure text").message =
      "raw platform failure text" := by
  decide

/-- C9 (amended): `categorizeError` is a total function into the closed
taxonomy: the six recognized names map to their fixed kind and message;
every other name — the empty (missing) name included — maps to `unknown`,
with the raw low-level message when it is nonempty and a fixed default
human-readable message otherwise; the resulting message is never empty. -/
theorem c9_classifier_taxonomy (name message : String) :
    ((name = "NotAllowedError" ∨ name = "PermissionDeniedError") →
      categorizeError name message =
        ⟨.permission_denied,
         "Camera access was denied. Please allow camera permissions in your browser settings and refresh."⟩) ∧
    ((name = "NotFoundError" ∨ name = "DevicesNotFoundError") →
      categorizeError name message =
        ⟨.device_not_found, "No camera found. Please connect a camera and try again."⟩) ∧
    ((name = "OverconstrainedError" ∨ name = "ConstraintNotSatisfiedError") →
      categorizeError name message =
        ⟨.overconstrained,
         "Camera does not support the requested settings. Trying with default settings..."⟩) ∧
    (name ≠ "NotAllowedError" → name ≠ "PermissionDeniedError" →
     name ≠ "NotFoundError" → name ≠ "DevicesNotFoundError" →
     name ≠ "OverconstrainedError" → name ≠ "ConstraintNotSatisfiedError" →
      (categorizeError name message).type = .unknown ∧
      (categorizeError name message).message =
        (if message = "" then "An unknown error occurred while accessing the camera."
         else message) ∧
      (categorizeError name message).message ≠ "") := by
  refine ⟨?_, ?_, ?_, ?_⟩
  · rintro (rfl | rfl) <;> simp [categorizeError]
  · rintro (rfl | rfl) <;> simp [categorizeError]
  · rintro (rfl | rfl) <;> simp [categorizeError]
  · intro h1 h2 h3 h4 h5 h6
    refine ⟨?_, ?_, ?_⟩ <;>
        simp only [categorizeError, h1, h2, h3, h4, h5, h6, or_self, if_false] <;>
        first
          | rfl
          | (split <;> simp_all)

/-- Witness for C9's amended theorem: one recognized name and one
unrecognized empty name. -/
theorem c9_witness :
    categorizeError "NotAllowedError" "x" =
      ⟨.permission_denied,
       "Camera access was denied. Please allow camera permissions in your browser settings and refresh."⟩ ∧
    (categorizeError "" "").type = .unknown ∧
    (categorizeError "" "").message ≠ "" :=
  ⟨(c9_classifier_taxonomy "NotAllowedError" "x").1 (Or.inl rfl),
   ((c9_classifier_taxonomy "" "").2.2.2 (by decide) (by decide) (by decide) (by decide)
      (by decide) (by decide)).1,
   ((c9_classifier_taxonomy "" "").2.2.2 (by decide) (by decide) (by decide) (by decide)
      (by decide) (by decide)).2.2⟩

/-! ### Negotiation lemmas for `start` -/

/-- A second acquisition attempt happens only after a first failure classified
`overconstrained` or `device_not_found`. -/
theorem negotiate_fallback_first {env : StartEnv} {s : St}
    (h : 2 ≤ (negotiate env s).2.2) :
    ∃ e, env.gum 0 = .err e ∧
      ((categorizeError e.name e.message).type = .overconstrained ∨
       (categorizeError e.name e.message).type = .device_not_found) := by
  rcases h0 : env.gum 0 with k | e
  · exfalso
    simp [negotiate, h0, allocStream] at h
  · refine ⟨e, rfl, ?_⟩
    by_contra hc
    simp [negotiate, h0, hc] at h

/-- A third acquisition attempt happens only after a second failure classified
`device_not_found`. -/
theorem negotiate_fallback_second {env : StartEnv} {s : St}
    (h : 3 ≤ (negotiate env s).2.2) :
    ∃ e2, env.gum 1 = .err e2 ∧
      (categorizeError e2.name e2.message).type = .device_not_found := by
  rcases h0 : env.gum 0 with k | e
  · exfalso
    simp [negotiate, h0, allocStream] at h
  · by_cases hc : (categorizeError e.name e.message).type = .overconstrained ∨
        (categorizeError e.name e.message).type = .device_not_found
    · rcases h1 : env.gum 1 with k2 | e2
      · exfalso
        simp [negotiate, h0, h1, hc, allocStream] at h
      · refine ⟨e2, rfl, ?_⟩
        by_contra hc2
        simp [negotiate, h0, h1, hc, hc2, allocStream] at h
    · exfalso
      simp [negotiate, h0, hc] at h

/-- When the first failure is neither `overconstrained` nor
`device_not_found`, negotiation stops at one attempt and rethrows it. -/
theorem negotiate_no_fallback {env : StartEnv} (s : St) {e : GumErr}
    (h0 : env.gum 0 = .err e)
    (hne : ¬((categorizeError e.name e.message).type = .overconstrained ∨
             (categorizeError e.name e.message).type = .device_not_found)) :
    negotiate env s = (requestDebug "with constraints" s, .err e, 1) := by
  simp [negotiate, h0, hne]

/-- A successful first attempt allocates one stream and stops negotiation. -/
theorem negotiate_ok {env : StartEnv} (s : St) {kinds : List String}
    (h0 : env.gum 0 = .ok kinds) :
    negotiate env s =
      ((allocStream kinds (requestDebug "with constraints" s)).2,
       .ok (allocStream kinds (requestDebug "with constraints" s)).1, 1) := by
  simp [negotiate, h0, allocStream]

/-- A `start` that passes both guards runs the negotiation body on the
flag-raised state. -/
theorem startRun_guard_pass {env : StartEnv} {s : St}
    (hf : s.startInFlight = false) (hv : s.videoMounted = true) :
    startRun env s = startBody env (startPre s) := by
  simp [startRun, hf, hv]

/-- The attempt count of the negotiation body is the negotiation's. -/
theorem startBody_attempts (env : StartEnv) (x : St) :
    (startBody env x).2 = (negotiate env x).2.2 := by
  simp only [startBody]
  rcases hn : negotiate env x with ⟨s1, res, n⟩
  rcases res with i | e <;> simp [apply_ite Prod.snd]

/-- The negotiation body, when negotiation rethrows an error, the component is
still mounted, and no suspension events occurred, ends in the classified
error state. -/
theorem startBody_err {env : StartEnv} {x : St}
    (hu : env.unbindDuring = false) (hd : env.disposeDuring = false)
    {s1 : St} {e : GumErr} {n : Nat}
    (hn : negotiate env x = (s1, .err e, n)) (hm : s1.mounted = true) :
    startBody env x =
      ({ s1 with
          hasPermission := some false,
          error := some (categorizeError e.name e.message).message,
          errorType := some (categorizeError e.name e.message).type,
          debugInfo := some ("Failed: " ++ (if e.name = "" then "Unknown" else e.name)
                               ++ " - " ++ e.message),
          startInFlight := false }, n) := by
  simp only [startBody]
  rw [hn]
  simp [hu, hd, hm]

/-- The negotiation body, when negotiation succeeds but the component was
disposed during the suspension, stops the fresh stream's tracks and returns
without attaching. -/
theorem startBody_disposed {env : StartEnv} {x : St}
    (hu : env.unbindDuring = false) (hd : env.disposeDuring = true)
    {s1 : St} {i n : Nat}
    (hn : negotiate env x = (s1, .ok i, n)) :
    startBody env x =
      ({ stopStreamTracks i (disposeCleanup s1) with
          debugInfo := some "Component unmounted, stopped stream.",
          startInFlight := false }, n) := by
  simp only [startBody]
  rw [hn]
  have hm := (disposeCleanup_basic s1).1
  simp [hu, hd, hm, stopStreamTracks]

/-- C4: in the negotiation performed by `start()`, a failed attempt is
followed by an attempt with the next constraint descriptor only when it
classified `overconstrained` or `device_not_found` (and a third attempt only
after a second failure classified `device_not_found`); in particular, when
every acquisition rejects with a permission-denied failure, exactly one
acquisition attempt is made and the resulting error kind is
`permission_denied`. -/
theorem c4_negotiation_policy (env : StartEnv) (s : St)
    (hf : s.startInFlight = false) (hv : s.videoMounted = true) (hm : s.mounted = true)
    (hu : env.unbindDuring = false) (hd : env.disposeDuring = false) :
    (2 ≤ (startRun env s).2 → ∃ e, env.gum 0 = .err e ∧
        ((categorizeError e.name e.message).type = .overconstrained ∨
         (categorizeError e.name e.message).type = .device_not_found)) ∧
    (3 ≤ (startRun env s).2 → ∃ e2, env.gum 1 = .err e2 ∧
        (categorizeError e2.name e2.message).type = .device_not_found) ∧
    (∀ e, env.gum 0 = .err e →
      (categorizeError e.name e.message).type = .permission_denied →
        (startRun env s).2 = 1 ∧
        (start env s).errorType = some .permission_denied ∧
        (start env s).error = some (categorizeError e.name e.message).message) := by
  have hg := @startRun_guard_pass env s hf hv
  have hatt : (startRun env s).2 = (negotiate env (startPre s)).2.2 := by
    rw [hg, startBody_attempts]
  refine ⟨?_, ?_, ?_⟩
  · intro h
    exact negotiate_fallback_first (hatt ▸ h)
  · intro h
    exact negotiate_fallback_second (hatt ▸ h)
  · intro e h0 hperm
    have hne : ¬((categorizeError e.name e.message).type = .overconstrained ∨
        (categorizeError e.name e.message).type = .device_not_found) := by
      rw [hperm]
      decide
    have hnf := negotiate_no_fallback (startPre s) h0 hne
    have hm1 : (requestDebug "with constraints" (startPre s)).mounted = true := by
      simp [requestDebug, startPre, hm]
    have hbody := startBody_err hu hd hnf hm1
    refine ⟨?_, ?_, ?_⟩
    · rw [hatt, hnf]
    · simp only [start, hg, hbody]
      simp [hperm]
    · simp only [start, hg, hbody]

/-- Witness for C4 against an environment that always denies permission. -/
theorem c4_witness :
    (s0.startInFlight = false ∧ s0.videoMounted = true ∧ s0.mounted = true ∧
     envPerm.unbindDuring = false ∧ envPerm.disposeDuring = false ∧
     envPerm.gum 0 = .err ⟨"NotAllowedError", "Permission denied"⟩) ∧
    ((startRun envPerm s0).2 = 1 ∧
     (start envPerm s0).errorType = some .permission_denied ∧
     (start envPerm s0).error =
       some (categorizeError "NotAllowedError" "Permission denied").message) :=
  ⟨⟨rfl, rfl, rfl, rfl, rfl, rfl⟩,
   (c4_negotiation_policy envPerm s0 rfl rfl rfl rfl rfl).2.2
     ⟨"NotAllowedError", "Permission denied"⟩ rfl (by decide)⟩

/-- C8: if the controller is disposed while an acquisition is in flight, then
once the acquisition resolves its fresh CaptureHandle has every track stopped
and is never attached — the final state holds no stream ref and the surface
source is clear; and disposal itself, from any state whatsoever, drops the
mounted flag, stops all tracks of any held CaptureHandle, clears the stream
ref, and clears the surface source whenever a surface is bound. -/
theorem c8_dispose_in_flight (env : StartEnv) (s sAny : St) (kinds : List String)
    (hf : s.startInFlight = false) (hv : s.videoMounted = true)
    (hu : env.unbindDuring = false) (hd : env.disposeDuring = true)
    (h0 : env.gum 0 = .ok kinds) :
    (streamReleased s.nextId (start env s) = true ∧
     (start env s).streamRef = none ∧
     (start env s).videoSrc = none ∧
     (start env s).mounted = false) ∧
    ((disposeCleanup sAny).mounted = false ∧
     (disposeCleanup sAny).streamRef = none ∧
     (∀ j, sAny.streamRef = some j → streamReleased j (disposeCleanup sAny) = true) ∧
     (sAny.videoMounted = true → (disposeCleanup sAny).videoSrc = none)) := by
  constructor
  · have hg := @startRun_guard_pass env s hf hv
    have hnf := negotiate_ok (startPre s) h0
    have hbody := startBody_disposed hu hd hnf
    have hstart : start env s =
        { stopStreamTracks (allocStream kinds (requestDebug "with constraints" (startPre s))).1
            (disposeCleanup
              (allocStream kinds (requestDebug "with constraints" (startPre s))).2) with
          debugInfo := some "Component unmounted, stopped stream.",
          startInFlight := false } := by
      simp only [start, hg, hbody]
    have hid : (allocStream kinds (requestDebug "with constraints" (startPre s))).1 =
        s.nextId := by
      simp [allocStream, requestDebug, startPre]
    rw [hid] at hstart
    have hvm : ((allocStream kinds
        (requestDebug "with constraints" (startPre s))).2).videoMounted = true := by
      simp [allocStream, requestDebug, startPre, hv]
    refine ⟨?_, ?_, ?_, ?_⟩ <;> rw [hstart]
    · exact (streamReleased_streams_eq s.nextId rfl).trans
        (streamReleased_stopStreamTracks s.nextId
          (disposeCleanup (allocStream kinds (requestDebug "with constraints" (startPre s))).2))
    · simp [stopStreamTracks,
        (disposeCleanup_basic
          (allocStream kinds (requestDebug "with constraints" (startPre s))).2).2]
    · simp [stopStreamTracks,
        disposeCleanup_videoSrc
          (allocStream kinds (requestDebug "with constraints" (startPre s))).2 hvm]
    · simp [stopStreamTracks,
        (disposeCleanup_basic
          (allocStream kinds (requestDebug "with constraints" (startPre s))).2).1]
  · refine ⟨(disposeCleanup_basic sAny).1, (disposeCleanup_basic sAny).2, ?_, ?_⟩
    · intro j hj
      obtain ⟨-, h2⟩ := disposeCleanup_eq_of_streamRef hj
      rw [streamReleased_streams_eq j h2]
      exact streamReleased_stopStreamTracks j sAny
    · intro hb
      exact disposeCleanup_videoSrc sAny hb

/-- Witness for C8: dispose during a successful acquisition from a fresh
controller, and disposal of a live controller. -/
theorem c8_witness :
    (s0.startInFlight = false ∧ s0.videoMounted = true ∧
     envDispose.unbindDuring = false ∧ envDispose.disposeDuring = true ∧
     envDispose.gum 0 = .ok ["video"] ∧
     sLive.streamRef = some 0 ∧ sLive.videoMounted = true) ∧
    ((streamReleased s0.nextId (start envDispose s0) = true ∧
      (start envDispose s0).streamRef = none ∧
      (start envDispose s0).videoSrc = none ∧
      (start envDispose s0).mounted = false) ∧
     ((disposeCleanup sLive).mounted = false ∧
      (disposeCleanup sLive).streamRef = none ∧
      streamReleased 0 (disposeCleanup sLive) = true ∧
      (disposeCleanup sLive).videoSrc = none)) :=
  ⟨⟨rfl, rfl, rfl, rfl, rfl, by decide, by decide⟩,
   (c8_dispose_in_flight envDispose s0 sLive ["video"] rfl rfl rfl rfl rfl).1,
   ⟨((c8_dispose_in_flight envDispose s0 sLive ["video"] rfl rfl rfl rfl rfl).2).1,
    ((c8_dispose_in_flight envDispose s0 sLive ["video"] rfl rfl rfl rfl rfl).2).2.1,
    ((c8_dispose_in_flight envDispose s0 sLive ["video"] rfl rfl rfl rfl rfl).2).2.2.1
      0 (by decide),
    ((c8_dispose_in_flight envDispose s0 sLive ["video"] rfl rfl rfl rfl rfl).2).2.2.2
      (by decide)⟩⟩

end Webcam
